import Mathlib

/-!
Shallow embedding of the React Native custom hooks in
EndLess728/Useful-React-Native-Custom-Hooks.

Modelling conventions:
* JavaScript optional values are `Option`; a JS `undefined` is `none`; the
  empty string is the only falsy string value.
* Calls into the underlying native APIs (Expo Notifications, Firebase
  Messaging, Expo Image Picker) are modelled by explicit environment records
  whose fields give the outcome of each call: `JsRes α` is the outcome of an
  awaited JS call, either `thrown` (the call raised) or `ok v`.
* The deduplication set `processedMessageIds` of `useNotifications` is a
  `Finset String`; each hook operation is a pure function from the current
  state and environment to the next state plus its observable output.
-/

/-- Outcome of an awaited JS call: either it throws or it returns a value. -/
inductive JsRes (α : Type) where
  | thrown : JsRes α
  | ok : α → JsRes α
  deriving DecidableEq

/-- True when the call did not throw. -/
def JsRes.isOk {α : Type} : JsRes α → Bool
  | JsRes.thrown => false
  | JsRes.ok _ => true

/-- JS `a || b` on optional strings: `undefined` and `""` are falsy. -/
def jsOr (a b : Option String) : Option String :=
  match a with
  | some s => if s = "" then b else some s
  | none => b

/-- True exactly when the optional string is falsy in JS (`undefined` or `""`). -/
def jsFalsy (a : Option String) : Bool :=
  match a with
  | some s => s = ""
  | none => true

/-- The payload object used by `navigateToChat` (fields read by the hooks). -/
structure NotificationData where
  notification_type : Option String
  type : Option String
  rideId : Option String
  sender : Option String
  customer : Option String
  userId : Option String
  deriving DecidableEq

/-- The JS empty object literal, as read through the fields above. -/
def NotificationData.empty : NotificationData := ⟨none, none, none, none, none, none⟩

/-- A string as seen by `JSON.parse`: it either parses to a payload object or
`JSON.parse` throws on it. -/
inductive JsonStr where
  | valid : NotificationData → JsonStr
  | invalid : JsonStr
  deriving DecidableEq

/-- The `data` field of a remote FCM message. -/
structure MsgData where
  id : Option String
  title : Option String
  body : Option String
  data : Option JsonStr
  deriving DecidableEq

/-- The JS empty object as a message data record. -/
def MsgData.empty : MsgData := ⟨none, none, none, none⟩

/-- Render one optional field of an object for `JSON.stringify`. -/
def optField (nm : String) (v : Option String) : String :=
  match v with
  | none => ""
  | some s => nm ++ ":" ++ s ++ ";"

/-- `JSON.stringify` of a nested payload string's content. -/
def stringifyJsonStr : JsonStr → String
  | JsonStr.valid d =>
      "\x7b" ++ optField "notification_type" d.notification_type ++
        optField "type" d.type ++ optField "rideId" d.rideId ++
        optField "sender" d.sender ++ optField "customer" d.customer ++
        optField "userId" d.userId ++ "\x7d"
  | JsonStr.invalid => "<raw>"

/-- `JSON.stringify(remoteMessage.data)` for a present data object: always a
nonempty (truthy) string that determines the object. -/
def stringifyMsgData (d : MsgData) : String :=
  "\x7b" ++ optField "id" d.id ++ optField "title" d.title ++
    optField "body" d.body ++
    (match d.data with
     | none => ""
     | some j => "data:" ++ stringifyJsonStr j ++ ";") ++ "\x7d"

/-- The `notification` payload of a remote FCM message. -/
structure NotifPayload where
  title : Option String
  body : Option String
  deriving DecidableEq

/-- A remote FCM message, with only the fields the hooks read. -/
structure RemoteMessage where
  messageId : Option String
  data : Option MsgData
  notification : Option NotifPayload
  deriving DecidableEq

/-- Content handed to `Notifications.scheduleNotificationAsync` by the
deduplicating variant (src/useNotifications.js, first hook): its `data` field
is the whole `remoteMessage.data ?? \x7b\x7d`. -/
structure ContentA where
  title : Option String
  body : Option String
  data : MsgData
  deriving DecidableEq

/-- The notification content built by the deduplicating variant:
`title: data?.title || notification?.title`, likewise for body,
`data: remoteMessage?.data ?? \x7b\x7d`. -/
def contentA (m : RemoteMessage) : ContentA :=
  ⟨jsOr (m.data.bind MsgData.title) (m.notification.bind NotifPayload.title),
   jsOr (m.data.bind MsgData.body) (m.notification.bind NotifPayload.body),
   m.data.getD MsgData.empty⟩

/-- Deduplication key of src/useNotifications.js (first hook):
`remoteMessage?.messageId || remoteMessage?.data?.id || JSON.stringify(remoteMessage?.data)`.
`JSON.stringify(undefined)` is `undefined`, hence the `Option.map`. -/
def dedupKeyA (m : RemoteMessage) : Option String :=
  jsOr (jsOr m.messageId (m.data.bind MsgData.id)) (m.data.map stringifyMsgData)

/-- `scheduleNotification` of src/useNotifications.js (first hook).
State: the `processedMessageIds` set.  `e` tells whether the awaited
`scheduleNotificationAsync` call throws; that call sits in a try/catch, so the
function always returns normally.  Output: the new set, and the notification
that was actually delivered (`none` when skipped or when the schedule call
threw). -/
def scheduleNotificationA (e : Bool) (s : Finset String) (m : RemoteMessage) :
    Finset String × Option ContentA :=
  match dedupKeyA m with
  | none => (s, none)
  | some k =>
    if k = "" ∨ k ∈ s then (s, none)
    else
      ((if 1000 < (insert k s).card then (∅ : Finset String) else insert k s),
       if e then none else some (contentA m))

/-- Content delivered by the part_000 variant and by the second hook of
src/useNotifications.js: its `data` field is the parsed nested payload. -/
structure ContentP where
  title : Option String
  body : Option String
  data : NotificationData
  deriving DecidableEq

/-- Deduplication key of src/unnamed/part_000 (no serialization fallback):
`remoteMessage?.messageId || remoteMessage?.data?.id`. -/
def dedupKeyP0 (m : RemoteMessage) : Option String :=
  jsOr m.messageId (m.data.bind MsgData.id)

/-- `scheduleNotification` of src/unnamed/part_000.  The nested
`remoteMessage.data.data` string is parsed with `JSON.parse` OUTSIDE the
try/catch (the try only wraps `scheduleNotificationAsync`), so a parse failure
propagates (`JsRes.thrown`) after the key was already inserted; `e` tells
whether `scheduleNotificationAsync` throws (that error is caught). -/
def scheduleNotificationP0 (e : Bool) (s : Finset String) (m : RemoteMessage) :
    JsRes (Finset String × Option ContentP) :=
  match dedupKeyP0 m with
  | none => JsRes.ok (s, none)
  | some k =>
    if k = "" ∨ k ∈ s then JsRes.ok (s, none)
    else
      let s1 := insert k s
      let title := jsOr (m.notification.bind NotifPayload.title) (m.data.bind MsgData.title)
      let body := jsOr (m.notification.bind NotifPayload.body) (m.data.bind MsgData.body)
      match m.data.bind MsgData.data with
      | some JsonStr.invalid => JsRes.thrown
      | some (JsonStr.valid nd) =>
          JsRes.ok (s1, if e then none else some ⟨title, body, nd⟩)
      | none =>
          JsRes.ok (s1, if e then none else some ⟨title, body, NotificationData.empty⟩)

/-- Background message handler of src/useNotifications.js (first hook):
skip scheduling when FCM already shows a system notification, i.e. whenever
`remoteMessage?.notification` is present; otherwise defer to
`scheduleNotification`. -/
def backgroundHandlerA (e : Bool) (s : Finset String) (m : RemoteMessage) :
    Finset String × Option ContentA :=
  if m.notification.isSome then (s, none)
  else scheduleNotificationA e s m

/-- Foreground (`onMessage`) handler of src/useNotifications.js (first hook):
always passes the message to `scheduleNotification`. -/
def onMessageA (e : Bool) (s : Finset String) (m : RemoteMessage) :
    Finset String × Option ContentA :=
  scheduleNotificationA e s m

/-- Foreground (`onMessage`) handler of the second hook of
src/useNotifications.js: builds the content (parsing `data.data` with an
unguarded `JSON.parse`) and awaits `scheduleNotificationAsync` with no
try/catch, so both kinds of error propagate. -/
def onMessageB (e : Bool) (m : RemoteMessage) : JsRes ContentP :=
  match m.data.bind MsgData.data with
  | some JsonStr.invalid => JsRes.thrown
  | some (JsonStr.valid nd) =>
      if e then JsRes.thrown
      else JsRes.ok ⟨m.notification.bind NotifPayload.title,
                     m.notification.bind NotifPayload.body, nd⟩
  | none =>
      if e then JsRes.thrown
      else JsRes.ok ⟨m.notification.bind NotifPayload.title,
                     m.notification.bind NotifPayload.body, NotificationData.empty⟩

/-- Background message handler of the second hook of src/useNotifications.js:
same body as its foreground handler, equally unguarded. -/
def backgroundHandlerB (e : Bool) (m : RemoteMessage) : JsRes ContentP :=
  match m.data.bind MsgData.data with
  | some JsonStr.invalid => JsRes.thrown
  | some (JsonStr.valid nd) =>
      if e then JsRes.thrown
      else JsRes.ok ⟨m.notification.bind NotifPayload.title,
                     m.notification.bind NotifPayload.body, nd⟩
  | none =>
      if e then JsRes.thrown
      else JsRes.ok ⟨m.notification.bind NotifPayload.title,
                     m.notification.bind NotifPayload.body, NotificationData.empty⟩

/-- The screen name constant `NAVIGATION.chatScreen`. -/
def NAVIGATION_chatScreen : String := "chatScreen"

/-- A call to `navigate(screen, params)`. -/
structure NavAction where
  screen : String
  rideId : Option String
  driverInfo : Option String
  deriving DecidableEq

/-- `navigateToChat` of src/useNotifications.js (first hook): handles both
`notification_type === "RIDE_REQUESTED"` (driverInfo = sender || customer) and
`type === "new_chat"` (driverInfo = userId). -/
def navigateToChatA (d : NotificationData) : Option NavAction :=
  if d.notification_type = some "RIDE_REQUESTED" then
    some ⟨NAVIGATION_chatScreen, d.rideId, jsOr d.sender d.customer⟩
  else if d.type = some "new_chat" then
    some ⟨NAVIGATION_chatScreen, d.rideId, d.userId⟩
  else none

/-- `navigateToChat` of src/unnamed/part_000: only `type === "new_chat"`. -/
def navigateToChatP0 (d : NotificationData) : Option NavAction :=
  if d.type = some "new_chat" then
    some ⟨NAVIGATION_chatScreen, d.rideId, d.userId⟩
  else none

/-- `navigateToChat` of the second hook of src/useNotifications.js: only
`type == "new_chat"`; called through optional chaining, so absent data never
navigates. -/
def navigateToChatB (d : Option NotificationData) : Option NavAction :=
  match d with
  | some dd =>
      if dd.type = some "new_chat" then
        some ⟨NAVIGATION_chatScreen, dd.rideId, dd.userId⟩
      else none
  | none => none

/-- A notification-click response; `data` stands for
`response?.notification?.request?.content?.data`. -/
structure ClickResponse where
  data : Option NotificationData
  deriving DecidableEq

/-- `handleNotificationClick` of src/useNotifications.js (first hook): it logs
the response and extracts the data, but the `navigateToChat` call is commented
out, so no click ever triggers a navigation. -/
def handleNotificationClickA (_ : ClickResponse) : Option NavAction :=
  none

/-- `handleNotificationClick` of src/unnamed/part_000:
`navigateToChat(response?.notification?.request?.content?.data ?? \x7b\x7d)`. -/
def handleNotificationClickP0 (r : ClickResponse) : Option NavAction :=
  navigateToChatP0 (r.data.getD NotificationData.empty)

/-- `handleNotificationClick` of the second hook of src/useNotifications.js:
`navigateToChat(response?.notification?.request?.content?.data)`. -/
def handleNotificationClickB (r : ClickResponse) : Option NavAction :=
  navigateToChatB r.data

/-- Environment for `requestUserPermissionAndToken`: outcome of
`getPermissionsAsync`, `requestPermissionsAsync` (each yields a status string)
and `messaging().getToken()`. -/
structure NotifEnv where
  getPermissionsRes : JsRes String
  requestPermissionsRes : JsRes String
  getTokenRes : JsRes String
  deriving DecidableEq

/-- `getFcmToken` of src/useNotifications.js: fetch the token inside its own
try/catch and write it to storage only when truthy.  The storage slot for
`STORAGE_KEYS.FCM_TOKEN` is an `Option String`. -/
def getFcmToken (tokenRes : JsRes String) (st : Option String) : Option String :=
  match tokenRes with
  | JsRes.thrown => st
  | JsRes.ok tok => if tok = "" then st else some tok

/-- `requestUserPermissionAndToken` of src/useNotifications.js (first hook):
check the existing permission, request when not granted, alert and return
false when still not granted, otherwise fetch and store the FCM token and
return true.  The outer try/catch turns a throw in the permission phase into
`false`; a throw inside `getFcmToken` is caught there.  Result: the returned
boolean and the new storage slot. -/
def requestUserPermissionAndToken (env : NotifEnv) (st : Option String) :
    Bool × Option String :=
  match env.getPermissionsRes with
  | JsRes.thrown => (false, st)
  | JsRes.ok existingStatus =>
    match (if existingStatus ≠ "granted" then env.requestPermissionsRes
           else JsRes.ok existingStatus) with
    | JsRes.thrown => (false, st)
    | JsRes.ok finalStatus =>
      if finalStatus ≠ "granted" then (false, st)
      else (true, getFcmToken env.getTokenRes st)

/-- The final permission status the function acts on (`none` when a throw in
the permission phase prevents one from being determined). -/
def finalStatus (env : NotifEnv) : Option String :=
  match env.getPermissionsRes with
  | JsRes.thrown => none
  | JsRes.ok existingStatus =>
    match (if existingStatus ≠ "granted" then env.requestPermissionsRes
           else JsRes.ok existingStatus) with
    | JsRes.thrown => none
    | JsRes.ok finalSt => some finalSt

/-- True when some underlying API call actually executed during
`requestUserPermissionAndToken` throws. -/
def errorThrown (env : NotifEnv) : Bool :=
  match env.getPermissionsRes with
  | JsRes.thrown => true
  | JsRes.ok existingStatus =>
    match (if existingStatus ≠ "granted" then env.requestPermissionsRes
           else JsRes.ok existingStatus) with
    | JsRes.thrown => true
    | JsRes.ok finalSt =>
      if finalSt ≠ "granted" then false
      else
        match env.getTokenRes with
        | JsRes.thrown => true
        | JsRes.ok _ => false

/-- A picker asset as returned by the Expo image picker. -/
structure Asset where
  uri : String
  fileName : Option String
  mimeType : Option String
  type : Option String
  deriving DecidableEq

/-- Result of a picker launch that returned (did not throw). -/
structure LaunchResult where
  canceled : Bool
  assets : List Asset
  deriving DecidableEq

/-- Environment of one pick call in src/useMediaPicker.js: the current
permission state, the outcome of requesting permission, and the outcome of the
launch call. -/
structure PickEnv where
  granted : Bool
  requestRes : JsRes Bool
  launchRes : JsRes LaunchResult
  deriving DecidableEq

/-- `pickImageWithLibrary` of src/useMediaPicker.js.  There is no try/catch:
a throw from `requestMediaPermission` or `launchImageLibraryAsync`
propagates.  When the pick is not canceled, `setMedia(result.assets[0])`
(which is `undefined`, i.e. `none`, on an empty asset list). -/
def pickImageWithLibrary (env : PickEnv) (media : Option Asset) :
    JsRes (Option Asset) :=
  match (if env.granted then JsRes.ok true else env.requestRes) with
  | JsRes.thrown => JsRes.thrown
  | JsRes.ok g =>
    if !g then JsRes.ok media
    else
      match env.launchRes with
      | JsRes.thrown => JsRes.thrown
      | JsRes.ok r =>
        if !r.canceled then JsRes.ok r.assets.head?
        else JsRes.ok media

/-- `pickImageWithCamera` of src/useMediaPicker.js: same shape as
`pickImageWithLibrary`, against the camera permission and launch call. -/
def pickImageWithCamera (env : PickEnv) (media : Option Asset) :
    JsRes (Option Asset) :=
  match (if env.granted then JsRes.ok true else env.requestRes) with
  | JsRes.thrown => JsRes.thrown
  | JsRes.ok g =>
    if !g then JsRes.ok media
    else
      match env.launchRes with
      | JsRes.thrown => JsRes.thrown
      | JsRes.ok r =>
        if !r.canceled then JsRes.ok r.assets.head?
        else JsRes.ok media

/-- A normalized media descriptor of the TS picker
(src/hooks/useAfterInteractionsEffect.ts, second document). -/
structure MediaAsset where
  uri : String
  type : Option String
  id : String
  name : Option String
  mimeType : Option String
  deriving DecidableEq

/-- The mapping the TS picker applies to a picked asset (`generateUID()` is
modelled by the environment-supplied `uid`). -/
def mapAsset (uid : String) (a : Asset) : MediaAsset :=
  ⟨a.uri, a.type, uid, a.fileName, a.mimeType⟩

/-- Environment of one pick call in the TS picker: permission state, request
and launch outcomes, the generated uid, and the caller-supplied options. -/
structure PickEnvT where
  granted : Bool
  requestRes : JsRes Bool
  launchRes : JsRes LaunchResult
  uid : String
  allowsMultipleSelection : Bool
  allowsEditing : Bool
  deriving DecidableEq

/-- `handlePermission` of the TS picker: request only when not already
granted; a throw from `requestPermission` propagates (it is awaited outside
any try/catch). -/
def handlePermission (granted : Bool) (req : JsRes Bool) : JsRes Bool :=
  if !granted then req else JsRes.ok true

/-- `chooseImageFromLibrary` of the TS picker.  The launch call sits in a
try/catch (a throw there only warns, leaving state unchanged), but the
`handlePermission` await is outside it.  On a successful pick with assets:
with `allowsMultipleSelection` and not `allowsEditing` it sets
`multipleMedia` to the mapped list, otherwise it sets `media` to the mapped
first asset.  Result: the new `(media, multipleMedia)` pair. -/
def chooseImageFromLibrary (env : PickEnvT) (media : Option MediaAsset)
    (multi : Option (List MediaAsset)) :
    JsRes (Option MediaAsset × Option (List MediaAsset)) :=
  match handlePermission env.granted env.requestRes with
  | JsRes.thrown => JsRes.thrown
  | JsRes.ok hasPermission =>
    if !hasPermission then JsRes.ok (media, multi)
    else
      match env.launchRes with
      | JsRes.thrown => JsRes.ok (media, multi)
      | JsRes.ok r =>
        match r.canceled, r.assets with
        | false, a :: rest =>
          if env.allowsMultipleSelection && !env.allowsEditing then
            JsRes.ok (media, some ((a :: rest).map (mapAsset env.uid)))
          else
            JsRes.ok (some (mapAsset env.uid a), multi)
        | _, _ => JsRes.ok (media, multi)

/-- `pickImageWithCamera` of the TS picker: same body as
`chooseImageFromLibrary` against the camera permission and launch call. -/
def pickImageWithCameraT (env : PickEnvT) (media : Option MediaAsset)
    (multi : Option (List MediaAsset)) :
    JsRes (Option MediaAsset × Option (List MediaAsset)) :=
  match handlePermission env.granted env.requestRes with
  | JsRes.thrown => JsRes.thrown
  | JsRes.ok hasPermission =>
    if !hasPermission then JsRes.ok (media, multi)
    else
      match env.launchRes with
      | JsRes.thrown => JsRes.ok (media, multi)
      | JsRes.ok r =>
        match r.canceled, r.assets with
        | false, a :: rest =>
          if env.allowsMultipleSelection && !env.allowsEditing then
            JsRes.ok (media, some ((a :: rest).map (mapAsset env.uid)))
          else
            JsRes.ok (some (mapAsset env.uid a), multi)
        | _, _ => JsRes.ok (media, multi)

/-- One app-state change event in src/use-app-active-state.js: given the
recorded `appState.current` and the incoming `nextAppState`, return whether
the callback fires and the newly recorded state. -/
def appStateStep (current nextAppState : String) : Bool × String :=
  (if nextAppState = "active" ∧ current = "background" then true else false,
   nextAppState)

/-- The subscriptions the hooks register on mount. -/
inductive Listener where
  | onMessageL
  | onOpenedAppL
  | responseL
  | backPressL
  | gestureStartL
  | appStateL
  | interactionL
  deriving DecidableEq

/-- Listeners still registered after unmount: the effect's cleanup (when the
effect returned one) removes the listeners it names. -/
def remainingAfterUnmount (registered : List Listener)
    (cleanup : Option (List Listener)) : List Listener :=
  registered.filter (fun l => !(cleanup.getD []).contains l)

/-- Listeners registered by the effect of src/useNotifications.js (first
hook): notification-response, onNotificationOpenedApp, onMessage. -/
def useNotificationsA_registered : List Listener :=
  [Listener.responseL, Listener.onOpenedAppL, Listener.onMessageL]

/-- Cleanup returned by that effect: unsubscribes all three. -/
def useNotificationsA_cleanup : Option (List Listener) :=
  some [Listener.onMessageL, Listener.onOpenedAppL, Listener.responseL]

/-- Listeners registered inside `initializeNotifications` of the second hook
of src/useNotifications.js. -/
def useNotificationsB_registered : List Listener :=
  [Listener.responseL, Listener.onOpenedAppL, Listener.onMessageL]

/-- What the second hook's effect itself returns: `useEffect` calls the async
`initializeNotifications()` and returns nothing, so the effect has NO cleanup
(the cleanup closure built inside the async function is returned into the
discarded promise). -/
def useNotificationsB_effectCleanup : Option (List Listener) :=
  none

/-- The cleanup closure built (but never used) inside
`initializeNotifications`: it would remove only the onMessage unsubscribe and
the response subscription, not onNotificationOpenedApp. -/
def useNotificationsB_innerCleanup : Option (List Listener) :=
  some [Listener.onMessageL, Listener.responseL]

/-- Listeners registered by the effect of src/unnamed/part_000. -/
def useNotificationsP0_registered : List Listener :=
  [Listener.responseL, Listener.onOpenedAppL, Listener.onMessageL]

/-- Cleanup returned by that effect: removes all three. -/
def useNotificationsP0_cleanup : Option (List Listener) :=
  some [Listener.onMessageL, Listener.onOpenedAppL, Listener.responseL]

/-- Listeners registered by src/unnamed/part_001 (`useBackHandler`). -/
def useBackHandler_registered : List Listener :=
  [Listener.backPressL, Listener.gestureStartL]

/-- Cleanup returned by `useBackHandler`'s effect. -/
def useBackHandler_cleanup : Option (List Listener) :=
  some [Listener.backPressL, Listener.gestureStartL]

/-- Listener registered by src/use-app-active-state.js. -/
def useAppActiveState_registered : List Listener :=
  [Listener.appStateL]

/-- Cleanup returned by `useAppActiveState`'s effect. -/
def useAppActiveState_cleanup : Option (List Listener) :=
  some [Listener.appStateL]

/-- Interaction handle registered by `useAfterInteractionsEffect`
(src/hooks/useAfterInteractionsEffect.ts, first document). -/
def useAfterInteractionsEffect_registered : List Listener :=
  [Listener.interactionL]

/-- Cleanup returned by `useAfterInteractionsEffect`'s effect: cancels the
interaction handle. -/
def useAfterInteractionsEffect_cleanup : Option (List Listener) :=
  some [Listener.interactionL]

/-! ### Iterated message processing for the deduplicating variant -/

/-- States of the `processedMessageIds` set after each successive call of the
deduplicating `scheduleNotification` on a list of incoming messages. -/
def runStatesA (e : Bool) : Finset String → List RemoteMessage → List (Finset String)
  | _, [] => []
  | s, m :: ms =>
      (scheduleNotificationA e s m).1 ::
        runStatesA e (scheduleNotificationA e s m).1 ms

/-- The messages for which the deduplicating `scheduleNotification` actually
delivered a local notification during the run. -/
def runScheduledA (e : Bool) : Finset String → List RemoteMessage → List RemoteMessage
  | _, [] => []
  | s, m :: ms =>
      (if ((scheduleNotificationA e s m).2).isSome then [m] else []) ++
        runScheduledA e (scheduleNotificationA e s m).1 ms

/-- A call whose key is already in the set is skipped and leaves the set
unchanged. -/
lemma schedA_skip (e : Bool) (s : Finset String) (m : RemoteMessage) (k : String)
    (hk : dedupKeyA m = some k) (hmem : k ∈ s) :
    scheduleNotificationA e s m = (s, none) := by
  simp only [scheduleNotificationA, hk]
  simp [hmem]

/-- A set member survives one call unless the call cleared the whole set. -/
lemma schedA_mem_persist (e : Bool) (s : Finset String) (m : RemoteMessage)
    (k : String) (hmem : k ∈ s) :
    (scheduleNotificationA e s m).1 = ∅ ∨ k ∈ (scheduleNotificationA e s m).1 := by
  cases hdk : dedupKeyA m with
  | none =>
    simp only [scheduleNotificationA, hdk]
    exact Or.inr hmem
  | some k2 =>
    by_cases h1 : k2 = "" ∨ k2 ∈ s
    · simp only [scheduleNotificationA, hdk, if_pos h1]
      exact Or.inr hmem
    · by_cases h2 : 1000 < (insert k2 s).card
      · simp only [scheduleNotificationA, hdk, if_neg h1, if_pos h2]
        exact Or.inl trivial
      · simp only [scheduleNotificationA, hdk, if_neg h1, if_neg h2]
        exact Or.inr (Finset.mem_insert_of_mem hmem)

/-- A call only delivers a notification when its key is truthy and fresh. -/
lemma schedA_some_fresh (e : Bool) (s : Finset String) (m : RemoteMessage)
    (h : ((scheduleNotificationA e s m).2).isSome = true) :
    ∃ k, dedupKeyA m = some k ∧ ¬(k = "" ∨ k ∈ s) := by
  simp only [scheduleNotificationA] at h
  cases hdk : dedupKeyA m with
  | none => rw [hdk] at h; simp at h
  | some k2 =>
    rw [hdk] at h
    by_cases h1 : k2 = "" ∨ k2 ∈ s
    · simp [h1] at h
    · exact ⟨k2, rfl, h1⟩

/-- As long as a key stays in the set (no step cleared it), every later
message carrying that key is skipped. -/
lemma runScheduledA_no_key (e : Bool) (k : String) :
    ∀ (ms : List RemoteMessage) (s : Finset String), k ∈ s →
      (∀ t ∈ runStatesA e s ms, t ≠ ∅) →
      ∀ m ∈ runScheduledA e s ms, dedupKeyA m ≠ some k := by
  intro ms
  induction ms with
  | nil =>
    intro s _ _ m hm
    simp [runScheduledA] at hm
  | cons mh tl ih =>
    intro s hmem hne m hm
    have hs' : (scheduleNotificationA e s mh).1 ≠ ∅ := by
      apply hne
      simp [runStatesA]
    have hmem' : k ∈ (scheduleNotificationA e s mh).1 := by
      rcases schedA_mem_persist e s mh k hmem with h | h
      · exact absurd h hs'
      · exact h
    have hne' : ∀ t ∈ runStatesA e (scheduleNotificationA e s mh).1 tl, t ≠ ∅ := by
      intro t ht
      apply hne
      simp only [runStatesA, List.mem_cons]
      exact Or.inr ht
    simp only [runScheduledA, List.mem_append] at hm
    rcases hm with hm | hm
    · by_cases hsome : ((scheduleNotificationA e s mh).2).isSome = true
      · simp only [hsome, if_true, List.mem_singleton] at hm
        obtain ⟨k2, hk2, hfresh⟩ := schedA_some_fresh e s mh hsome
        intro hcontra
        rw [hm] at hcontra
        rw [hcontra] at hk2
        cases hk2
        exact hfresh (Or.inr hmem)
      · simp only [Bool.not_eq_true] at hsome
        simp [hsome] at hm
    · exact ih (scheduleNotificationA e s mh).1 hmem' hne' m hm

/-- C1: if the deduplication key of a remote message is already in
`processedMessageIds`, `scheduleNotification` returns with the set unchanged
and schedules nothing; and once a key is in the set, every later call in a
run whose steps never clear the set skips every message with that key. -/
theorem c1_dedup_once_seen (e : Bool) (s : Finset String) (ms : List RemoteMessage)
    (m0 : RemoteMessage) (k : String)
    (hk : dedupKeyA m0 = some k) (hmem : k ∈ s) :
    scheduleNotificationA e s m0 = (s, none) ∧
    ((∀ t ∈ runStatesA e s ms, t ≠ ∅) →
      ∀ m ∈ runScheduledA e s ms, dedupKeyA m ≠ some k) := by
  refine ⟨schedA_skip e s m0 k hk hmem, ?_⟩
  intro hne
  exact runScheduledA_no_key e k ms s hmem hne

/-- C1 witness: with "a" already processed, a message whose messageId is "a"
is skipped and the set is unchanged. -/
theorem c1_witness :
    scheduleNotificationA false {"a"} ⟨some "a", none, none⟩ = ({"a"}, none) :=
  (c1_dedup_once_seen false {"a"} [] ⟨some "a", none, none⟩ "a"
    (by decide) (by decide)).1

/-- One call keeps the set within the 1000-entry bound. -/
lemma schedA_card_le (e : Bool) (s : Finset String) (m : RemoteMessage)
    (h : s.card ≤ 1000) : ((scheduleNotificationA e s m).1).card ≤ 1000 := by
  cases hdk : dedupKeyA m with
  | none => simpa [scheduleNotificationA, hdk] using h
  | some k =>
    by_cases h1 : k = "" ∨ k ∈ s
    · simpa [scheduleNotificationA, hdk, h1] using h
    · by_cases h2 : 1000 < (insert k s).card
      · simp [scheduleNotificationA, hdk, h1, h2]
      · simp only [scheduleNotificationA, hdk, if_neg h1, if_neg h2]
        omega

/-- Every state of a run from a bounded set stays within the bound. -/
lemma runStatesA_card_le (e : Bool) :
    ∀ (ms : List RemoteMessage) (s : Finset String), s.card ≤ 1000 →
      ∀ t ∈ runStatesA e s ms, t.card ≤ 1000 := by
  intro ms
  induction ms with
  | nil =>
    intro s _ t ht
    simp [runStatesA] at ht
  | cons mh tl ih =>
    intro s hs t ht
    simp only [runStatesA, List.mem_cons] at ht
    rcases ht with ht | ht
    · rw [ht]
      exact schedA_card_le e s mh hs
    · exact ih _ (schedA_card_le e s mh hs) t ht

/-- C2: in the evicting variant, `processedMessageIds` holds at most 1000
entries after every completed `scheduleNotification` call: one call preserves
the bound, whenever inserting a fresh key pushes the size past 1000 the set is
cleared in that same call, and every state of a run from the initial empty set
respects the bound. -/
theorem c2_bounded_set (e : Bool) (s : Finset String) (m : RemoteMessage)
    (k : String) (hcard : s.card ≤ 1000) :
    ((scheduleNotificationA e s m).1).card ≤ 1000 ∧
    (dedupKeyA m = some k → ¬(k = "" ∨ k ∈ s) → 1000 < (insert k s).card →
      (scheduleNotificationA e s m).1 = ∅) ∧
    (∀ ms : List RemoteMessage, ∀ t ∈ runStatesA e ∅ ms, t.card ≤ 1000) := by
  refine ⟨schedA_card_le e s m hcard, ?_, ?_⟩
  · intro hdk h1 h2
    simp [scheduleNotificationA, hdk, h1, h2]
  · intro ms t ht
    exact runStatesA_card_le e ms ∅ (by simp) t ht

/-- C2 witness: processing a fresh message from the empty set keeps the set
within the bound. -/
theorem c2_witness :
    ((scheduleNotificationA false ∅ ⟨some "m1", none, none⟩).1).card ≤ 1000 :=
  (c2_bounded_set false ∅ ⟨some "m1", none, none⟩ "m1" (by simp)).1

/-- C8: the app-state hook's callback fires exactly on a change event whose
new state is "active" while the recorded state is "background"; the recorded
state is always updated to the new state; in particular an
"inactive" to "active" transition does not fire the callback. -/
theorem c8_app_active_transition (current nextAppState : String) :
    ((appStateStep current nextAppState).1 = true ↔
      (nextAppState = "active" ∧ current = "background")) ∧
    (appStateStep current nextAppState).2 = nextAppState ∧
    (appStateStep "inactive" "active").1 = false := by
  refine ⟨?_, rfl, by decide⟩
  by_cases h : nextAppState = "active" ∧ current = "background"
  · simp [appStateStep, h]
  · simp [appStateStep, h]

/-- C9: when every deduplication-key candidate is absent or falsy, both
deduplicating variants of `scheduleNotification` schedule nothing and leave
the processed-id set unchanged (and part_000 does so without throwing). -/
theorem c9_invalid_key (e : Bool) (s : Finset String) (m : RemoteMessage) :
    (jsFalsy (dedupKeyA m) = true → scheduleNotificationA e s m = (s, none)) ∧
    (jsFalsy (dedupKeyP0 m) = true →
      scheduleNotificationP0 e s m = JsRes.ok (s, none)) := by
  constructor
  · intro h
    cases hdk : dedupKeyA m with
    | none => simp [scheduleNotificationA, hdk]
    | some k =>
      rw [hdk] at h
      simp only [jsFalsy, decide_eq_true_eq] at h
      simp [scheduleNotificationA, hdk, h]
  · intro h
    cases hdk : dedupKeyP0 m with
    | none => simp [scheduleNotificationP0, hdk]
    | some k =>
      rw [hdk] at h
      simp only [jsFalsy, decide_eq_true_eq] at h
      simp [scheduleNotificationP0, hdk, h]

/-- C9 witness: a message with no messageId, no data and no notification is
dropped by both variants without touching the set. -/
theorem c9_witness :
    scheduleNotificationA false ∅ ⟨none, none, none⟩ = (∅, none) ∧
    scheduleNotificationP0 false ∅ ⟨none, none, none⟩ = JsRes.ok (∅, none) :=
  ⟨(c9_invalid_key false ∅ ⟨none, none, none⟩).1 (by decide),
   (c9_invalid_key false ∅ ⟨none, none, none⟩).2 (by decide)⟩

/-- C10: the deduplicating variant's background handler returns without
scheduling whenever the message carries a notification payload, defers to
`scheduleNotification` exactly on data-only messages, and the foreground
handler passes every message to `scheduleNotification`. -/
theorem c10_background_data_only (e : Bool) (s : Finset String) (m : RemoteMessage) :
    (m.notification.isSome = true → backgroundHandlerA e s m = (s, none)) ∧
    (m.notification = none → backgroundHandlerA e s m = scheduleNotificationA e s m) ∧
    onMessageA e s m = scheduleNotificationA e s m := by
  refine ⟨?_, ?_, rfl⟩
  · intro h
    simp [backgroundHandlerA, h]
  · intro h
    simp [backgroundHandlerA, h]

/-- C10 witness: a message with a notification payload is skipped by the
background handler. -/
theorem c10_witness :
    backgroundHandlerA false ∅ ⟨some "m1", none, some ⟨none, none⟩⟩ = (∅, none) :=
  (c10_background_data_only false ∅ ⟨some "m1", none, some ⟨none, none⟩⟩).1 (by decide)

/-- C4: after unmount, the first useNotifications variant, part_000,
useBackHandler, useAppActiveState and useAfterInteractionsEffect have no
listener left, but the second useNotifications variant's effect returns no
cleanup at all (the cleanup closure is returned into the discarded promise of
the async `initializeNotifications`), so all three of its listeners survive
unmount — and even its never-used inner cleanup would leave the
`onNotificationOpenedApp` listener registered. -/
theorem c4_unmount_listeners :
    remainingAfterUnmount useNotificationsB_registered useNotificationsB_effectCleanup =
      useNotificationsB_registered ∧
    useNotificationsB_registered ≠ [] ∧
    remainingAfterUnmount useNotificationsB_registered useNotificationsB_innerCleanup =
      [Listener.onOpenedAppL] ∧
    remainingAfterUnmount useNotificationsA_registered useNotificationsA_cleanup = [] ∧
    remainingAfterUnmount useNotificationsP0_registered useNotificationsP0_cleanup = [] ∧
    remainingAfterUnmount useBackHandler_registered useBackHandler_cleanup = [] ∧
    remainingAfterUnmount useAppActiveState_registered useAppActiveState_cleanup = [] ∧
    remainingAfterUnmount useAfterInteractionsEffect_registered
      useAfterInteractionsEffect_cleanup = [] := by
  decide

/-- The C3 claim as stated: the function returns true iff the final status is
granted, and whenever an underlying call throws it returns false with storage
untouched. -/
def claimC3Stated (env : NotifEnv) (st : Option String) : Prop :=
  ((requestUserPermissionAndToken env st).1 = true ↔ finalStatus env = some "granted") ∧
  (errorThrown env = true → requestUserPermissionAndToken env st = (false, st))

/-- C3 counterexample: with permission granted but `getToken` throwing, an
error is thrown by an underlying call yet the function returns true (the
throw is swallowed inside `getFcmToken`), so the claim as stated fails. -/
theorem c3_counterexample :
    ¬ claimC3Stated ⟨JsRes.ok "granted", JsRes.ok "granted", JsRes.thrown⟩ none := by
  unfold claimC3Stated
  decide

/-- C3 (amended): the function returns true iff the final permission status
is "granted" (a throw in the permission phase yields false with storage
untouched); storage changes only when the status is "granted" and a nonempty
token was fetched, in which case that token is stored; a throw during token
fetch is caught inside `getFcmToken`, so the function still returns true and
storage is untouched. -/
theorem c3_permission_token (env : NotifEnv) (st : Option String) :
    ((requestUserPermissionAndToken env st).1 = true ↔
      finalStatus env = some "granted") ∧
    (finalStatus env ≠ some "granted" →
      requestUserPermissionAndToken env st = (false, st)) ∧
    ((requestUserPermissionAndToken env st).2 ≠ st →
      finalStatus env = some "granted" ∧
      ∃ tok, env.getTokenRes = JsRes.ok tok ∧ tok ≠ "" ∧
        (requestUserPermissionAndToken env st).2 = some tok) ∧
    (finalStatus env = some "granted" → env.getTokenRes = JsRes.thrown →
      requestUserPermissionAndToken env st = (true, st)) := by
  obtain ⟨gp, rp, gt⟩ := env
  cases gp with
  | thrown => simp [requestUserPermissionAndToken, finalStatus]
  | ok ex =>
    by_cases hex : ex = "granted"
    · subst hex
      cases gt with
      | thrown => simp [requestUserPermissionAndToken, finalStatus, getFcmToken]
      | ok tok =>
        by_cases htok : tok = ""
        · subst htok
          simp [requestUserPermissionAndToken, finalStatus, getFcmToken]
        · simp only [requestUserPermissionAndToken, finalStatus, getFcmToken,
            ne_eq, not_true_eq_false, if_false, if_neg htok]
          refine ⟨by simp, by simp, ?_, by simp⟩
          intro _
          exact ⟨by trivial, tok, by trivial, htok, by trivial⟩
    · cases rp with
      | thrown => simp [requestUserPermissionAndToken, finalStatus, hex]
      | ok fs =>
        by_cases hfs : fs = "granted"
        · subst hfs
          cases gt with
          | thrown => simp [requestUserPermissionAndToken, finalStatus, getFcmToken, hex]
          | ok tok =>
            by_cases htok : tok = ""
            · subst htok
              simp [requestUserPermissionAndToken, finalStatus, getFcmToken, hex]
            · simp only [requestUserPermissionAndToken, finalStatus, getFcmToken,
                ne_eq, hex, not_false_eq_true, if_true, not_true_eq_false,
                if_false, if_neg htok]
              refine ⟨by simp, by simp, ?_, by simp⟩
              intro _
              exact ⟨by trivial, tok, by trivial, htok, by trivial⟩
        · simp [requestUserPermissionAndToken, finalStatus, hex, hfs]

/-- C3 witness: a fully granted, successfully fetching environment
instantiates the amended theorem. -/
theorem c3_witness :
    (requestUserPermissionAndToken
        ⟨JsRes.ok "granted", JsRes.ok "granted", JsRes.ok "tok"⟩ none).1 = true ↔
      finalStatus ⟨JsRes.ok "granted", JsRes.ok "granted", JsRes.ok "tok"⟩ =
        some "granted" :=
  (c3_permission_token
    ⟨JsRes.ok "granted", JsRes.ok "granted", JsRes.ok "tok"⟩ none).1

/-- True when part_000's deduplication key of the message is truthy and not
yet in the set (exactly the calls that reach the content-building step). -/
def p0KeyFresh (s : Finset String) (m : RemoteMessage) : Bool :=
  match dedupKeyP0 m with
  | none => false
  | some k => decide (¬(k = "" ∨ k ∈ s))

/-- The C5 claim as stated, instantiated at the media picker: every error
raised by the underlying pick API inside the operation is caught, so the
operation always returns normally. -/
def claimC5Stated : Prop :=
  ∀ (env : PickEnv) (media : Option Asset),
    (pickImageWithLibrary env media).isOk = true

/-- C5 counterexample: `pickImageWithLibrary` of src/useMediaPicker.js has no
try/catch, so a throwing `launchImageLibraryAsync` propagates out of the
operation instead of being caught and logged. -/
theorem c5_counterexample : ¬ claimC5Stated := by
  intro h
  exact absurd (h ⟨true, JsRes.ok true, JsRes.thrown⟩ none) (by decide)

/-- C5 (amended): errors are caught and swallowed where a try/catch exists —
the deduplicating scheduleNotification (its state is unaffected by a throwing
schedule call), the permission/token flow, and the TS picker's launch call —
but they propagate uncaught from: part_000's scheduleNotification exactly
when the unguarded `JSON.parse` fails on a fresh message, the simple media
picker's pick functions, the TS picker's permission-request step, and the
second hook's unguarded foreground/background message handlers. -/
theorem c5_error_swallowing (e : Bool) (s : Finset String) (m : RemoteMessage)
    (env : NotifEnv) (st : Option String) (envL : PickEnv) (media : Option Asset)
    (envT : PickEnvT) (mediaT : Option MediaAsset)
    (multiT : Option (List MediaAsset)) :
    (scheduleNotificationA e s m).1 = (scheduleNotificationA false s m).1 ∧
    ((scheduleNotificationP0 e s m).isOk = false ↔
      (p0KeyFresh s m = true ∧ m.data.bind MsgData.data = some JsonStr.invalid)) ∧
    (env.getPermissionsRes = JsRes.thrown →
      requestUserPermissionAndToken env st = (false, st)) ∧
    getFcmToken JsRes.thrown st = st ∧
    (envT.granted = true → envT.launchRes = JsRes.thrown →
      chooseImageFromLibrary envT mediaT multiT = JsRes.ok (mediaT, multiT) ∧
      pickImageWithCameraT envT mediaT multiT = JsRes.ok (mediaT, multiT)) ∧
    (envL.granted = true → envL.launchRes = JsRes.thrown →
      pickImageWithLibrary envL media = JsRes.thrown ∧
      pickImageWithCamera envL media = JsRes.thrown) ∧
    (envT.granted = false → envT.requestRes = JsRes.thrown →
      chooseImageFromLibrary envT mediaT multiT = JsRes.thrown) ∧
    (e = true → onMessageB e m = JsRes.thrown ∧
      backgroundHandlerB e m = JsRes.thrown) ∧
    (m.data.bind MsgData.data = some JsonStr.invalid →
      onMessageB e m = JsRes.thrown ∧ backgroundHandlerB e m = JsRes.thrown) := by
  refine ⟨?_, ?_, ?_, rfl, ?_, ?_, ?_, ?_, ?_⟩
  · cases hdk : dedupKeyA m with
    | none => simp [scheduleNotificationA, hdk]
    | some k =>
      by_cases h1 : k = "" ∨ k ∈ s
      · simp [scheduleNotificationA, hdk, h1]
      · simp [scheduleNotificationA, hdk, h1]
  · cases hdk : dedupKeyP0 m with
    | none => simp [scheduleNotificationP0, hdk, p0KeyFresh, JsRes.isOk]
    | some k =>
      by_cases h1 : k = "" ∨ k ∈ s
      · simp [scheduleNotificationP0, hdk, h1, p0KeyFresh, JsRes.isOk]
      · cases hdd : m.data.bind MsgData.data with
        | none =>
          simp [scheduleNotificationP0, hdk, h1, hdd, p0KeyFresh, JsRes.isOk]
        | some j =>
          cases j with
          | invalid =>
            simp [scheduleNotificationP0, hdk, h1, hdd, p0KeyFresh, JsRes.isOk]
          | valid nd =>
            simp [scheduleNotificationP0, hdk, h1, hdd, p0KeyFresh, JsRes.isOk]
  · intro h
    simp [requestUserPermissionAndToken, h]
  · intro hg hl
    constructor
    · simp [chooseImageFromLibrary, handlePermission, hg, hl]
    · simp [pickImageWithCameraT, handlePermission, hg, hl]
  · intro hg hl
    constructor
    · simp [pickImageWithLibrary, hg, hl]
    · simp [pickImageWithCamera, hg, hl]
  · intro hg hr
    simp [chooseImageFromLibrary, handlePermission, hg, hr]
  · intro he
    subst he
    constructor
    · cases hdd : m.data.bind MsgData.data with
      | none => simp [onMessageB, hdd]
      | some j => cases j <;> simp [onMessageB, hdd]
    · cases hdd : m.data.bind MsgData.data with
      | none => simp [backgroundHandlerB, hdd]
      | some j => cases j <;> simp [backgroundHandlerB, hdd]
  · intro hdd
    exact ⟨by simp [onMessageB, hdd], by simp [backgroundHandlerB, hdd]⟩

/-- C5 witness: the unguarded foreground handler of the second hook
propagates a throwing schedule call, and the simple library pick propagates a
throwing launch call. -/
theorem c5_witness :
    onMessageB true ⟨none, none, none⟩ = JsRes.thrown ∧
    pickImageWithLibrary ⟨true, JsRes.ok true, JsRes.thrown⟩ none = JsRes.thrown := by
  have h := c5_error_swallowing true ∅ ⟨none, none, none⟩
      ⟨JsRes.thrown, JsRes.thrown, JsRes.thrown⟩ none
      ⟨true, JsRes.ok true, JsRes.thrown⟩ none
      ⟨true, JsRes.ok true, JsRes.thrown, "u", false, false⟩ none none
  exact ⟨(h.2.2.2.2.2.2.2.1 rfl).1, (h.2.2.2.2.2.1 rfl rfl).1⟩

/-- The C6 claim as stated, at the variant that handles RIDE_REQUESTED
(src/useNotifications.js, first hook): a click navigates exactly when the
notification data carries a recognized type. -/
def claimC6Stated : Prop :=
  ∀ r : ClickResponse,
    (handleNotificationClickA r).isSome = true ↔
      ((r.data.getD NotificationData.empty).notification_type =
        some "RIDE_REQUESTED" ∨
       (r.data.getD NotificationData.empty).type = some "new_chat")

/-- C6 counterexample: in the variant whose `navigateToChat` handles
RIDE_REQUESTED, the click handler's navigation call is commented out, so a
click carrying `notification_type: "RIDE_REQUESTED"` does not navigate. -/
theorem c6_counterexample : ¬ claimC6Stated := by
  intro h
  have h2 := (h ⟨some ⟨some "RIDE_REQUESTED", none, none, none, none, none⟩⟩).mpr
    (Or.inl (by decide))
  exact absurd h2 (by decide)

/-- C6 (amended): in part_000 and in the second hook of useNotifications.js a
click navigates to the chat screen exactly when the data's `type` is
"new_chat", passing its rideId and userId; in the first hook of
useNotifications.js no click ever navigates (the `navigateToChat` call is
commented out), even though its `navigateToChat` function would handle
RIDE_REQUESTED if invoked. -/
theorem c6_click_navigation (r : ClickResponse) (d : NotificationData) :
    handleNotificationClickA r = none ∧
    ((handleNotificationClickP0 r).isSome = true ↔
      ∃ dd, r.data = some dd ∧ dd.type = some "new_chat") ∧
    ((handleNotificationClickB r).isSome = true ↔
      ∃ dd, r.data = some dd ∧ dd.type = some "new_chat") ∧
    (r.data = some d → d.type = some "new_chat" →
      handleNotificationClickP0 r =
        some ⟨NAVIGATION_chatScreen, d.rideId, d.userId⟩ ∧
      handleNotificationClickB r =
        some ⟨NAVIGATION_chatScreen, d.rideId, d.userId⟩) ∧
    (navigateToChatA ⟨some "RIDE_REQUESTED", none, none, none, none, none⟩).isSome
      = true := by
  refine ⟨rfl, ?_, ?_, ?_, by decide⟩
  · cases hr : r.data with
    | none =>
      simp [handleNotificationClickP0, navigateToChatP0, NotificationData.empty, hr]
    | some dd =>
      by_cases ht : dd.type = some "new_chat"
      · simp [handleNotificationClickP0, navigateToChatP0, hr, ht]
      · simp [handleNotificationClickP0, navigateToChatP0, hr, ht]
  · cases hr : r.data with
    | none => simp [handleNotificationClickB, navigateToChatB, hr]
    | some dd =>
      by_cases ht : dd.type = some "new_chat"
      · simp [handleNotificationClickB, navigateToChatB, hr, ht]
      · simp [handleNotificationClickB, navigateToChatB, hr, ht]
  · intro h1 h2
    constructor
    · simp [handleNotificationClickP0, navigateToChatP0, h1, h2]
    · simp [handleNotificationClickB, navigateToChatB, h1, h2]

/-- C6 witness: a new_chat click navigates with the data's rideId and userId
in part_000 and in the second hook. -/
theorem c6_witness :
    handleNotificationClickP0
        ⟨some ⟨none, some "new_chat", some "r1", none, none, some "u1"⟩⟩ =
      some ⟨NAVIGATION_chatScreen, some "r1", some "u1"⟩ ∧
    handleNotificationClickB
        ⟨some ⟨none, some "new_chat", some "r1", none, none, some "u1"⟩⟩ =
      some ⟨NAVIGATION_chatScreen, some "r1", some "u1"⟩ :=
  (c6_click_navigation
    ⟨some ⟨none, some "new_chat", some "r1", none, none, some "u1"⟩⟩
    ⟨none, some "new_chat", some "r1", none, none, some "u1"⟩).2.2.2.1 rfl rfl

/-- A permission gate evaluates to granted when either the stored status is
granted or the single request returns granted. -/
lemma pickPerm_ok (g : Bool) (req : JsRes Bool)
    (h : g = true ∨ req = JsRes.ok true) :
    (if g then JsRes.ok true else req) = JsRes.ok true := by
  rcases h with h | h
  · simp [h]
  · cases g <;> simp [h]

/-- `handlePermission` grants when the status is granted or the single
request returns granted. -/
lemma handlePermission_ok (g : Bool) (req : JsRes Bool)
    (h : g = true ∨ req = JsRes.ok true) :
    handlePermission g req = JsRes.ok true := by
  rcases h with h | h
  · simp [handlePermission, h]
  · cases g <;> simp [handlePermission, h]

/-- The C7 claim as stated, at the TS picker's camera function: whenever the
permission is granted and the pick succeeds with at least one asset, `media`
is set to something. -/
def claimC7Stated : Prop :=
  ∀ (env : PickEnvT) (mediaT : Option MediaAsset)
    (multiT : Option (List MediaAsset)) (r : LaunchResult) (a : Asset)
    (rest : List Asset),
    env.granted = true → env.launchRes = JsRes.ok r → r.canceled = false →
    r.assets = a :: rest →
    ∃ x p, pickImageWithCameraT env mediaT multiT = JsRes.ok (some x, p)

/-- C7 counterexample: with `allowsMultipleSelection` and no `allowsEditing`,
a successful pick sets `multipleMedia` and leaves `media` unchanged (here
`none`), so the claim as stated fails. -/
theorem c7_counterexample : ¬ claimC7Stated := by
  intro h
  obtain ⟨x, p, hx⟩ := h
    ⟨true, JsRes.ok true, JsRes.ok ⟨false, [⟨"u", none, none, none⟩]⟩,
      "id0", true, false⟩ none none ⟨false, [⟨"u", none, none, none⟩]⟩
    ⟨"u", none, none, none⟩ [] rfl rfl rfl rfl
  rw [show pickImageWithCameraT
      ⟨true, JsRes.ok true, JsRes.ok ⟨false, [⟨"u", none, none, none⟩]⟩,
        "id0", true, false⟩ none none =
      JsRes.ok (none, some [⟨"u", none, "id0", none, none⟩]) from by decide] at hx
  simp at hx

/-- C7 (amended): for both simple pick functions and both TS pick functions,
a denied permission (after at most one request) or a canceled pick leaves the
media state unchanged; a successful pick with at least one asset sets `media`
to the first returned asset (the simple picker stores it as-is, the TS picker
stores its normalized descriptor) — except that the TS functions, when called
with `allowsMultipleSelection` and without `allowsEditing`, set
`multipleMedia` to the mapped asset list and leave `media` unchanged. -/
theorem c7_media_picker (envL : PickEnv) (envT : PickEnvT)
    (media : Option Asset) (mediaT : Option MediaAsset)
    (multiT : Option (List MediaAsset)) (r : LaunchResult) (a : Asset)
    (rest : List Asset) :
    (envL.granted = false → envL.requestRes = JsRes.ok false →
      pickImageWithLibrary envL media = JsRes.ok media ∧
      pickImageWithCamera envL media = JsRes.ok media) ∧
    ((envL.granted = true ∨ envL.requestRes = JsRes.ok true) →
      envL.launchRes = JsRes.ok r → r.canceled = true →
      pickImageWithLibrary envL media = JsRes.ok media ∧
      pickImageWithCamera envL media = JsRes.ok media) ∧
    ((envL.granted = true ∨ envL.requestRes = JsRes.ok true) →
      envL.launchRes = JsRes.ok r → r.canceled = false → r.assets = a :: rest →
      pickImageWithLibrary envL media = JsRes.ok (some a) ∧
      pickImageWithCamera envL media = JsRes.ok (some a)) ∧
    (envT.granted = false → envT.requestRes = JsRes.ok false →
      chooseImageFromLibrary envT mediaT multiT = JsRes.ok (mediaT, multiT) ∧
      pickImageWithCameraT envT mediaT multiT = JsRes.ok (mediaT, multiT)) ∧
    ((envT.granted = true ∨ envT.requestRes = JsRes.ok true) →
      envT.launchRes = JsRes.ok r → r.canceled = true →
      chooseImageFromLibrary envT mediaT multiT = JsRes.ok (mediaT, multiT) ∧
      pickImageWithCameraT envT mediaT multiT = JsRes.ok (mediaT, multiT)) ∧
    ((envT.granted = true ∨ envT.requestRes = JsRes.ok true) →
      envT.launchRes = JsRes.ok r → r.canceled = false → r.assets = a :: rest →
      (envT.allowsMultipleSelection && !envT.allowsEditing) = false →
      chooseImageFromLibrary envT mediaT multiT =
        JsRes.ok (some (mapAsset envT.uid a), multiT) ∧
      pickImageWithCameraT envT mediaT multiT =
        JsRes.ok (some (mapAsset envT.uid a), multiT)) ∧
    ((envT.granted = true ∨ envT.requestRes = JsRes.ok true) →
      envT.launchRes = JsRes.ok r → r.canceled = false → r.assets = a :: rest →
      (envT.allowsMultipleSelection && !envT.allowsEditing) = true →
      chooseImageFromLibrary envT mediaT multiT =
        JsRes.ok (mediaT, some ((a :: rest).map (mapAsset envT.uid))) ∧
      pickImageWithCameraT envT mediaT multiT =
        JsRes.ok (mediaT, some ((a :: rest).map (mapAsset envT.uid)))) := by
  refine ⟨?_, ?_, ?_, ?_, ?_, ?_, ?_⟩
  · intro hg hr
    constructor
    · simp [pickImageWithLibrary, hg, hr]
    · simp [pickImageWithCamera, hg, hr]
  · intro hp hl hc
    have hperm := pickPerm_ok envL.granted envL.requestRes hp
    constructor
    · simp [pickImageWithLibrary, hperm, hl, hc]
    · simp [pickImageWithCamera, hperm, hl, hc]
  · intro hp hl hc ha
    have hperm := pickPerm_ok envL.granted envL.requestRes hp
    constructor
    · simp [pickImageWithLibrary, hperm, hl, hc, ha]
    · simp [pickImageWithCamera, hperm, hl, hc, ha]
  · intro hg hr
    constructor
    · simp [chooseImageFromLibrary, handlePermission, hg, hr]
    · simp [pickImageWithCameraT, handlePermission, hg, hr]
  · intro hp hl hc
    have hperm := handlePermission_ok envT.granted envT.requestRes hp
    constructor
    · simp [chooseImageFromLibrary, hperm, hl, hc]
    · simp [pickImageWithCameraT, hperm, hl, hc]
  · intro hp hl hc ha hmode
    have hperm := handlePermission_ok envT.granted envT.requestRes hp
    constructor
    · simp [chooseImageFromLibrary, hperm, hl, hc, ha, hmode]
    · simp [pickImageWithCameraT, hperm, hl, hc, ha, hmode]
  · intro hp hl hc ha hmode
    have hperm := handlePermission_ok envT.granted envT.requestRes hp
    constructor
    · simp [chooseImageFromLibrary, hperm, hl, hc, ha, hmode]
    · simp [pickImageWithCameraT, hperm, hl, hc, ha, hmode]

/-- C7 witness: a granted, successful single pick stores the first asset. -/
theorem c7_witness :
    pickImageWithLibrary
        ⟨true, JsRes.ok true, JsRes.ok ⟨false, [⟨"u", none, none, none⟩]⟩⟩ none =
      JsRes.ok (some ⟨"u", none, none, none⟩) :=
  ((c7_media_picker
      ⟨true, JsRes.ok true, JsRes.ok ⟨false, [⟨"u", none, none, none⟩]⟩⟩
      ⟨true, JsRes.ok true, JsRes.ok ⟨false, []⟩, "i", false, false⟩ none none none
      ⟨false, [⟨"u", none, none, none⟩]⟩ ⟨"u", none, none, none⟩ []).2.2.1
    (Or.inl rfl) rfl rfl rfl).1
